import Mathlib

/-!
Verification of the hotelAgent booking pipeline.

Shallow embedding of the booking-inquiry core of the repository:
  * `src/rag/config.py`  — the static pricing catalogs `ROOM_PRICING` and
    `MEETING_ROOM_PRICING`;
  * `src/rag/api.py`     — `_get_hotel_room_options`, `_get_meeting_room_options`,
    `_get_next_booking_id`, the validation and dispatch part of
    `request_booking` (after the external LLM extraction step), and
    `confirm_booking`.

Modelling conventions:
  * All prices in the catalogs are integers and the arithmetic on them is
    integer addition/multiplication, so money is modelled as `Nat`.
  * `hotel_data.json` is not part of the repository sources; the dictionary
    loaded by `_load_hotel_data` is therefore a parameter (`HotelData`) of the
    resolvers, mirroring exactly the keys the code reads.  JSON numbers that
    are only displayed (room sizes, dimensions) are modelled as `ℚ`; their
    textual rendering is abstracted by `toString`.
  * Python dicts iterate in insertion order and the catalogs have distinct
    keys, so a dict is an association list and `dict.get` is `List.lookup`.
  * `list.sort(key=...)` in Python is a stable ascending sort; it is modelled
    with `List.insertionSort` on the same key, which is stable.
  * Raising `HTTPException` aborts the request handler before any store write,
    so the persistent ledger is unchanged on every error path; the embedded
    operations return the unchanged state together with the error.
  * Python's `f"BK-{counter:03d}"` is decimal rendering zero-padded to a
    minimum width of 3, embedded as `formatBookingId`.
-/

namespace HotelAgent

/-! ### Decimal rendering of booking counters (`f"BK-{counter:03d}"`) -/

/-- ASCII digit character for a decimal digit value. -/
def digitChar (d : Nat) : Char := Char.ofNat (48 + d)

/-- Decimal digits of `n`, least significant first, computed with explicit
fuel so that the definition is structural (kernel-reducible). -/
def decDigitsAux : Nat → Nat → List Nat
  | 0, _ => []
  | _ + 1, 0 => []
  | fuel + 1, n => (n % 10) :: decDigitsAux fuel (n / 10)

/-- Decimal digits of `n`, least significant first. -/
def decDigitsLE (n : Nat) : List Nat := decDigitsAux n n

/-- Decimal rendering of `n`, most significant digit first (empty for 0,
exactly as the padded rendering below needs it). -/
def decChars (n : Nat) : List Char := ((decDigitsLE n).reverse).map digitChar

/-- Left-pad a character list with `'0'` to a minimum width of 3
(Python's `:03d` format). -/
def pad3 (cs : List Char) : List Char := List.replicate (3 - cs.length) '0' ++ cs

/-- The booking identifier produced for counter value `n`:
`f"BK-{n:03d}"` from `_get_next_booking_id` in `src/rag/api.py`. -/
def formatBookingId (n : Nat) : String := "BK-" ++ String.mk (pad3 (decChars n))

/-! ### Pricing catalogs (`src/rag/config.py`) -/

/-- One entry of `ROOM_PRICING` (per-night hotel pricing rule). -/
structure HotelPricing where
  base_price : Nat
  price_per_extra_guest : Nat
  max_guests : Nat
deriving DecidableEq, Repr

/-- `ROOM_PRICING` from `src/rag/config.py` (per night, EUR). -/
def ROOM_PRICING : List (String × HotelPricing) :=
  [("Einzelzimmer", ⟨89, 0, 1⟩),
   ("DORMERO Zimmer", ⟨119, 25, 2⟩),
   ("Komfort Zimmer", ⟨149, 25, 2⟩),
   ("Junior Suite", ⟨199, 35, 4⟩)]

/-- One entry of `MEETING_ROOM_PRICING` (per-day meeting-room pricing rule). -/
structure MeetingPricing where
  half_day : Nat
  full_day : Nat
  price_per_person_catering : Nat
deriving DecidableEq, Repr

/-- `MEETING_ROOM_PRICING` from `src/rag/config.py` (per day, EUR). -/
def MEETING_ROOM_PRICING : List (String × MeetingPricing) :=
  [("Carolina Cik", ⟨450, 750, 35⟩),
   ("Carina Cörbchen", ⟨280, 450, 35⟩)]

/-! ### The hotel data file (parameter: `hotel_data.json` is data, not source) -/

/-- The keys `_get_hotel_room_options` reads from one entry of
`hotel_data["room_details"]`; absent keys are `none`. -/
structure HotelRoomDetails where
  sqm : Option ℚ
  sqm_min : Option ℚ
  sqm_max : Option ℚ
  count : Option Nat
deriving DecidableEq, Repr

/-- The keys `_get_meeting_room_options` reads from one entry of
`hotel_data["meeting_rooms"]`; absent keys are `none`. -/
structure MeetingRoomDetails where
  max_capacity : Option Nat
  sqm : Option ℚ
  daylight : Bool
  free_wifi : Bool
  seating_options : Option String
  length_m : Option ℚ
  width_m : Option ℚ
  height_m : Option ℚ
deriving DecidableEq, Repr

/-- The parts of the `hotel_data.json` dictionary the booking pipeline reads. -/
structure HotelData where
  name : Option String
  address : Option String
  postal_code : Option String
  city : Option String
  email : Option String
  phone : Option String
  room_details : List (String × HotelRoomDetails)
  room_features : List String
  meeting_rooms : List (String × MeetingRoomDetails)
deriving DecidableEq, Repr

/-! ### `RoomOption` (pydantic model in `src/rag/api.py`) -/

/-- The `RoomOption` response model. -/
structure RoomOption where
  room_name : String
  room_category : String
  size_sqm : Option ℚ
  max_capacity : Nat
  available_count : Option Nat
  price_per_night : Option Nat
  price_per_day : Option Nat
  total_price : Nat
  nights : Option Nat
  days : Option Nat
  features : List String
  notes : Option String
deriving DecidableEq, Repr

/-! ### Python helpers used by the resolvers -/

/-- Truthiness of an optional JSON number (Python: `None` and `0` are falsy). -/
def qTruthy : Option ℚ → Bool
  | none => false
  | some q => decide (q ≠ 0)

/-- Python's `a or b` on two optional JSON numbers. -/
def orFalsyQ (a b : Option ℚ) : Option ℚ :=
  match a with
  | some q => if q ≠ 0 then some q else b
  | none => b

/-- Rendering of a JSON number inside an f-string (decimal rendering
abstracted by `toString`). -/
def renderQ (q : ℚ) : String := toString q

/-- Rendering of `details.get(key)` inside an f-string (`None` when absent). -/
def renderOptQ : Option ℚ → String
  | some q => renderQ q
  | none => "None"

/-- Rendering of `details.get(key, '?')` inside an f-string. -/
def renderDim : Option ℚ → String
  | some q => renderQ q
  | none => "?"

/-- Python `str.lower()` (ASCII case folding suffices for the values used). -/
def lowerStr (s : String) : String := String.mk (s.data.map Char.toLower)

/-! ### Hotel room resolver (`_get_hotel_room_options`, `src/rag/api.py` 160-201) -/

/-- The `notes` field built for a hotel room option: `f"Size: {size_sqm} sqm"`
when the size display is truthy, else `None`. -/
def hotelNotes (d : HotelRoomDetails) : Option String :=
  if qTruthy d.sqm_max then
    some ("Size: " ++ renderOptQ d.sqm_min ++ "-" ++ renderOptQ d.sqm_max ++ " sqm")
  else
    match orFalsyQ d.sqm d.sqm_min with
    | some q => if q ≠ 0 then some ("Size: " ++ renderQ q ++ " sqm") else none
    | none => none

/-- The body of the `for room_name, details in room_details.items()` loop of
`_get_hotel_room_options`: `none` when the room is skipped (`continue`),
`some option` when an option is appended. -/
def hotelOptionFor (guests nights : Nat) (room_features : List String)
    (room_name : String) (details : HotelRoomDetails) : Option RoomOption :=
  match List.lookup room_name ROOM_PRICING with
  | none => none
  | some pricing =>
    if pricing.max_guests < guests then
      none
    else
      let extra_guests := if 1 < pricing.max_guests then guests - 1 else 0
      let price_per_night :=
        pricing.base_price + extra_guests * pricing.price_per_extra_guest
      let total_price := price_per_night * nights
      some
        { room_name := room_name
          room_category := "Hotel Room"
          size_sqm := orFalsyQ details.sqm details.sqm_min
          max_capacity := pricing.max_guests
          available_count := details.count
          price_per_night := some price_per_night
          price_per_day := none
          total_price := total_price
          nights := some nights
          days := none
          features := room_features
          notes := hotelNotes details }

/-- Python's `options.sort(key=lambda x: x.total_price)` — a stable ascending
sort on `total_price`. -/
def sortByTotalPrice (l : List RoomOption) : List RoomOption :=
  List.insertionSort (fun a b => a.total_price ≤ b.total_price) l

/-- `_get_hotel_room_options(hotel_data, guests, nights)`. -/
def _get_hotel_room_options (hotel_data : HotelData) (guests nights : Nat) :
    List RoomOption :=
  sortByTotalPrice
    (hotel_data.room_details.filterMap
      (fun p => hotelOptionFor guests nights hotel_data.room_features p.1 p.2))

/-! ### Meeting room resolver (`_get_meeting_room_options`, `src/rag/api.py` 204-257) -/

/-- The catering annotation `f"Includes catering: €{...}/person/day"`. -/
def cateringNote (pricing : MeetingPricing) : String :=
  "Includes catering: €" ++ toString pricing.price_per_person_catering ++ "/person/day"

/-- The feature list built for a meeting room option. -/
def meetingFeatures (d : MeetingRoomDetails) : List String :=
  (if d.daylight then ["Natural daylight"] else []) ++
    (if d.free_wifi then ["Free WiFi"] else []) ++
    [d.seating_options.getD "Flexible seating"]

/-- `f"{length_m}m × {width_m}m"` with `'?'` defaults. -/
def meetingDims (d : MeetingRoomDetails) : String :=
  renderDim d.length_m ++ "m × " ++ renderDim d.width_m ++ "m"

/-- The body of the `for room_name, details in meeting_rooms.items()` loop of
`_get_meeting_room_options`: `none` on `continue`, `some option` otherwise. -/
def meetingOptionFor (guests days : Nat) (include_catering : Bool)
    (room_name : String) (details : MeetingRoomDetails) : Option RoomOption :=
  let max_capacity := details.max_capacity.getD 0
  if max_capacity < guests then
    none
  else
    match List.lookup room_name MEETING_ROOM_PRICING with
    | none => none
    | some pricing =>
      let price_per_day := pricing.full_day
      let catering_cost :=
        if include_catering then pricing.price_per_person_catering * guests * days else 0
      let total_price := price_per_day * days + catering_cost
      let catering_note : Option String :=
        if include_catering then some (cateringNote pricing) else none
      some
        { room_name := room_name
          room_category := "Meeting Room"
          size_sqm := details.sqm
          max_capacity := max_capacity
          available_count := none
          price_per_night := none
          price_per_day := some price_per_day
          total_price := total_price
          nights := none
          days := some days
          features := meetingFeatures details
          notes := some ("Dimensions: " ++ meetingDims details ++ ", Height: " ++
            renderDim details.height_m ++ "m. " ++ catering_note.getD "") }

/-- `_get_meeting_room_options(hotel_data, guests, days, include_catering)`. -/
def _get_meeting_room_options (hotel_data : HotelData) (guests days : Nat)
    (include_catering : Bool) : List RoomOption :=
  sortByTotalPrice
    (hotel_data.meeting_rooms.filterMap
      (fun p => meetingOptionFor guests days include_catering p.1 p.2))

/-! ### The booking ledger (`pending_bookings.json` / `confirmed_bookings.json`) -/

/-- One record of the pending partition, as written by `request_booking`
(`src/rag/api.py` 504-525).  Dates are modelled as proleptic day ordinals
(`datetime.date` subtraction yields whole days). -/
structure PendingBooking where
  booking_id : String
  original_request : String
  room_type : String
  check_in : Int
  check_out : Int
  guests : Nat
  include_catering : Bool
  duration_nights : Option Nat
  duration_days : Option Nat
  available_options : List RoomOption
  hotel_name : String
  hotel_address : String
  contact_email : String
  contact_phone : String
  timestamp : String
deriving DecidableEq, Repr

/-- One record of the confirmed partition, as written by `confirm_booking`
(`src/rag/api.py` 593-609). -/
structure ConfirmedBooking where
  booking_id : String
  original_request : String
  room_type : String
  check_in : Int
  check_out : Int
  guests : Nat
  include_catering : Bool
  duration_nights : Option Nat
  duration_days : Option Nat
  selected_room : RoomOption
  hotel_name : String
  hotel_address : String
  contact_email : String
  contact_phone : String
  confirmation_timestamp : String
deriving DecidableEq, Repr

/-- The durable two-partition ledger: the contents of
`pending_bookings.json` and `confirmed_bookings.json`. -/
structure LedgerState where
  pending : List PendingBooking
  confirmed : List ConfirmedBooking
deriving DecidableEq, Repr

/-! ### Identifier allocator (`_get_next_booking_id`, `src/rag/api.py` 301-319) -/

/-- The set of identifiers collected from both partitions (the `all_ids`
set; membership in the Python `set` is membership in this list). -/
def allBookingIds (st : LedgerState) : List String :=
  st.pending.map (fun b => b.booking_id) ++ st.confirmed.map (fun b => b.booking_id)

/-- The `while True` probe loop of `_get_next_booking_id`, with fuel making
termination explicit: try `counter`, `counter+1`, ... until the formatted
identifier is not in `ids`.  The fuel used below is provably sufficient. -/
def nextIdAux (ids : List String) : Nat → Nat → String
  | 0, counter => formatBookingId counter
  | fuel + 1, counter =>
    if formatBookingId counter ∈ ids then nextIdAux ids fuel (counter + 1)
    else formatBookingId counter

/-- `_get_next_booking_id()`: probe sequential counters starting at 1.
The loop stops after at most `|all_ids| + 1` probes (pigeonhole, proved
below), so fuel `|all_ids|` after the first probe is enough. -/
def _get_next_booking_id (st : LedgerState) : String :=
  nextIdAux (allBookingIds st) (allBookingIds st).length 1

/-! ### Confirmation workflow (`confirm_booking`, `src/rag/api.py` 544-623) -/

/-- The error cases of `confirm_booking` (each a raised `HTTPException`):
"Booking already confirmed", "Booking ID not found",
"Room option not available for this booking". -/
inductive ConfirmError where
  | alreadyConfirmed
  | bookingNotFound
  | roomNotAvailable
deriving DecidableEq, Repr

/-- Outcome of a `confirm_booking` call. -/
inductive ConfirmOutcome where
  | failure (e : ConfirmError)
  | success (cb : ConfirmedBooking)
deriving DecidableEq, Repr

/-- The `confirmed_booking` dict literal of `confirm_booking`: every field
is copied from the pending record, with the chosen option as
`selected_room` and a fresh confirmation timestamp. -/
def mkConfirmedBooking (booking_id : String) (pb : PendingBooking)
    (selected : RoomOption) (now : String) : ConfirmedBooking :=
  { booking_id := booking_id
    original_request := pb.original_request
    room_type := pb.room_type
    check_in := pb.check_in
    check_out := pb.check_out
    guests := pb.guests
    include_catering := pb.include_catering
    duration_nights := pb.duration_nights
    duration_days := pb.duration_days
    selected_room := selected
    hotel_name := pb.hotel_name
    hotel_address := pb.hotel_address
    contact_email := pb.contact_email
    contact_phone := pb.contact_phone
    confirmation_timestamp := now }

/-- `confirm_booking(booking_id, room_name)`.  A raised `HTTPException`
aborts the handler before any store write, so every failure returns the
ledger unchanged; on success the record is removed from `pending` and the
confirmed record is appended to `confirmed`. -/
def confirm_booking (st : LedgerState) (booking_id room_name now : String) :
    LedgerState × ConfirmOutcome :=
  if st.confirmed.any (fun c => c.booking_id == booking_id) then
    (st, .failure .alreadyConfirmed)
  else
    match st.pending.find? (fun b => b.booking_id == booking_id) with
    | none => (st, .failure .bookingNotFound)
    | some pending_booking =>
      match pending_booking.available_options.find?
          (fun o => o.room_name == room_name) with
      | none => (st, .failure .roomNotAvailable)
      | some selected_room =>
        let cb := mkConfirmedBooking booking_id pending_booking selected_room now
        ({ pending := st.pending.filter (fun b => b.booking_id != booking_id),
           confirmed := st.confirmed ++ [cb] }, .success cb)

/-! ### Inquiry workflow (`request_booking`, `src/rag/api.py` 422-527,
after the external extraction step) -/

/-- The structured fields produced by `_parse_booking_request` once the two
date strings have been parsed (`datetime.strptime(..., "%Y-%m-%d").date()`).
Dates are proleptic day ordinals, so `check_out - check_in` is the stay
length in whole days. -/
structure ParsedBooking where
  room_type : String
  check_in : Int
  check_out : Int
  guests : Nat
  include_catering : Bool
deriving DecidableEq, Repr

/-- The validation failures of `request_booking` after extraction:
"Check-out date must be after check-in date" and
"Number of guests must be between 1 and 150". -/
inductive BookingError where
  | badDates
  | badGuestCount
deriving DecidableEq, Repr

/-- Outcome of a `request_booking` call. -/
inductive RequestResult where
  | failure (e : BookingError)
  | success (pb : PendingBooking)
deriving DecidableEq, Repr

/-- The post-extraction core of `request_booking`: date-order and
guest-count validation, room-type dispatch, identifier allocation, and the
append of the pending record.  Note the dispatch: options are resolved as a
hotel inquiry when the lowercased room type equals `"hotel"` and as a
meeting inquiry OTHERWISE — there is no rejection of unknown room types in
the source. -/
def request_booking_core (hotel_data : HotelData) (parsed : ParsedBooking)
    (original_request timestamp : String) (st : LedgerState) :
    LedgerState × RequestResult :=
  if parsed.check_out ≤ parsed.check_in then
    (st, .failure .badDates)
  else if parsed.guests < 1 ∨ 150 < parsed.guests then
    (st, .failure .badGuestCount)
  else
    let duration := (parsed.check_out - parsed.check_in).toNat
    let room_type := lowerStr parsed.room_type
    let options :=
      if room_type == "hotel" then
        _get_hotel_room_options hotel_data parsed.guests duration
      else
        _get_meeting_room_options hotel_data parsed.guests duration
          parsed.include_catering
    let booking_id := _get_next_booking_id st
    let pb : PendingBooking :=
      { booking_id := booking_id
        original_request := original_request
        room_type := room_type
        check_in := parsed.check_in
        check_out := parsed.check_out
        guests := parsed.guests
        include_catering := parsed.include_catering
        duration_nights := if room_type == "hotel" then some duration else none
        duration_days := if room_type == "meeting" then some duration else none
        available_options := options
        hotel_name := hotel_data.name.getD "DORMERO Hotel"
        hotel_address := hotel_data.address.getD "" ++ ", " ++
          hotel_data.postal_code.getD "" ++ " " ++ hotel_data.city.getD ""
        contact_email := hotel_data.email.getD ""
        contact_phone := hotel_data.phone.getD ""
        timestamp := timestamp }
    ({ st with pending := st.pending ++ [pb] }, .success pb)

/-! ### Lemmas about the identifier format -/

theorem decDigitsAux_eq_digits (fuel n : Nat) (h : n ≤ fuel) :
    decDigitsAux fuel n = Nat.digits 10 n := by
  induction fuel generalizing n with
  | zero =>
    have : n = 0 := Nat.le_zero.mp h
    subst this
    simp [decDigitsAux]
  | succ fuel ih =>
    cases n with
    | zero => simp [decDigitsAux]
    | succ m =>
      have hdiv : (m + 1) / 10 ≤ fuel := by
        have := Nat.div_lt_self (Nat.succ_pos m) (by norm_num : 1 < 10)
        omega
      have hstep : decDigitsAux (fuel + 1) (m + 1) =
          ((m + 1) % 10) :: decDigitsAux fuel ((m + 1) / 10) := rfl
      rw [hstep, ih _ hdiv, ← Nat.digits_def' (b := 10) (by norm_num) (Nat.succ_pos m)]

theorem decDigitsLE_eq_digits (n : Nat) : decDigitsLE n = Nat.digits 10 n :=
  decDigitsAux_eq_digits n n le_rfl

/-- Horner evaluation of a most-significant-first digit list. -/
def parseChars (cs : List Char) : Nat :=
  cs.foldl (fun a c => a * 10 + (c.toNat - 48)) 0

theorem parseChars_pad (cs : List Char) (k : Nat) :
    parseChars (List.replicate k '0' ++ cs) = parseChars cs := by
  induction k with
  | zero => rfl
  | succ k ih =>
    simpa [parseChars, List.replicate_succ, List.foldl_cons] using ih

theorem foldl_horner (L : List Nat) (a : Nat) :
    List.foldl (fun acc d => acc * 10 + d) a L.reverse =
      a * 10 ^ L.length + Nat.ofDigits 10 L := by
  induction L generalizing a with
  | nil => simp
  | cons d T ih =>
    simp only [List.reverse_cons, List.foldl_append, List.foldl_cons, List.foldl_nil, ih,
      Nat.ofDigits_cons, List.length_cons]
    ring

theorem foldl_map_digit (L : List Nat) (h : ∀ d ∈ L, d < 10) (a : Nat) :
    List.foldl (fun acc c => acc * 10 + (c.toNat - 48)) a (L.map digitChar) =
      List.foldl (fun acc d => acc * 10 + d) a L := by
  induction L generalizing a with
  | nil => rfl
  | cons d T ih =>
    have hd : d < 10 := h d (by simp)
    have hc : (digitChar d).toNat - 48 = d := by
      unfold digitChar
      interval_cases d <;> decide
    simp only [List.map_cons, List.foldl_cons, hc]
    exact ih (fun x hx => h x (by simp [hx])) _

theorem parseChars_decChars (n : Nat) : parseChars (decChars n) = n := by
  have hd : ∀ d ∈ (Nat.digits 10 n).reverse, d < 10 := by
    intro d hdm
    exact Nat.digits_lt_base (by norm_num) (List.mem_reverse.mp hdm)
  unfold parseChars decChars
  rw [decDigitsLE_eq_digits, foldl_map_digit _ hd, foldl_horner]
  simp [Nat.ofDigits_digits]

theorem parseChars_pad3_decChars (n : Nat) : parseChars (pad3 (decChars n)) = n := by
  unfold pad3
  rw [parseChars_pad, parseChars_decChars]

/-- The identifier format is injective: distinct counters give distinct
identifiers. -/
theorem formatBookingId_inj : Function.Injective formatBookingId := by
  intro m n h
  have hdata : ('B' :: 'K' :: '-' :: pad3 (decChars m)) =
      ('B' :: 'K' :: '-' :: pad3 (decChars n)) := by
    have := congrArg String.data h
    simpa [formatBookingId, String.data_append] using this
  have hpad : pad3 (decChars m) = pad3 (decChars n) := by
    simpa using hdata
  have := congrArg parseChars hpad
  rwa [parseChars_pad3_decChars, parseChars_pad3_decChars] at this

/-! ### Lemmas about the identifier allocator -/

/-- What the probe loop computes: the first counter at or after `c` whose
formatted identifier is free, provided some such counter is within fuel. -/
theorem nextIdAux_spec (ids : List String) (fuel : Nat) :
    ∀ c : Nat, (∃ j, j ≤ fuel ∧ formatBookingId (c + j) ∉ ids) →
      ∃ j, j ≤ fuel ∧ formatBookingId (c + j) ∉ ids ∧
        nextIdAux ids fuel c = formatBookingId (c + j) ∧
        ∀ i < j, formatBookingId (c + i) ∈ ids := by
  induction fuel with
  | zero =>
    intro c h
    obtain ⟨j, hj, hmem⟩ := h
    have hj0 : j = 0 := Nat.le_zero.mp hj
    subst hj0
    exact ⟨0, le_rfl, hmem, by simp [nextIdAux], by omega⟩
  | succ fuel ih =>
    intro c h
    by_cases hc : formatBookingId c ∈ ids
    · have h' : ∃ j, j ≤ fuel ∧ formatBookingId (c + 1 + j) ∉ ids := by
        obtain ⟨j, hj, hmem⟩ := h
        cases j with
        | zero => exact absurd hc (by simpa using hmem)
        | succ j' =>
          exact ⟨j', by omega, by rwa [show c + 1 + j' = c + (j' + 1) by omega]⟩
      obtain ⟨j, hj, hmem, heq, hall⟩ := ih (c + 1) h'
      refine ⟨j + 1, by omega, by rwa [show c + (j + 1) = c + 1 + j by omega], ?_, ?_⟩
      · rw [nextIdAux, if_pos hc, heq]
        congr 1
        omega
      · intro i hi
        cases i with
        | zero => simpa using hc
        | succ i' =>
          have := hall i' (by omega)
          rwa [show c + (i' + 1) = c + 1 + i' by omega]
    · exact ⟨0, Nat.zero_le _, by simpa using hc,
        by rw [nextIdAux, if_neg hc]; simp, by omega⟩

/-- Pigeonhole: among the `|ids| + 1` candidates `1, 2, ..., |ids| + 1`,
some formatted identifier is not in `ids`. -/
theorem exists_fresh_counter (ids : List String) :
    ∃ j, j ≤ ids.length ∧ formatBookingId (1 + j) ∉ ids := by
  by_contra hcon
  push_neg at hcon
  have hinj : Function.Injective (fun j : ℕ => formatBookingId (1 + j)) := by
    intro a b hab
    have := formatBookingId_inj hab
    omega
  have hsub : (Finset.range (ids.length + 1)).image (fun j => formatBookingId (1 + j)) ⊆
      ids.toFinset := by
    intro s hs
    simp only [Finset.mem_image, Finset.mem_range] at hs
    obtain ⟨j, hj, rfl⟩ := hs
    exact List.mem_toFinset.mpr (hcon j (by omega))
  have hcard := Finset.card_le_card hsub
  rw [Finset.card_image_of_injective _ hinj, Finset.card_range] at hcard
  have := ids.toFinset_card_le
  omega

/-- The allocator returns the formatted value of the least free positive
counter; in particular the returned identifier is fresh. -/
theorem next_booking_id_spec (st : LedgerState) :
    ∃ n, 0 < n ∧ _get_next_booking_id st = formatBookingId n ∧
      formatBookingId n ∉ allBookingIds st ∧
      ∀ m, 0 < m → m < n → formatBookingId m ∈ allBookingIds st := by
  obtain ⟨j, hj, hfree⟩ := exists_fresh_counter (allBookingIds st)
  obtain ⟨j₀, _, hmem, heq, hall⟩ :=
    nextIdAux_spec (allBookingIds st) (allBookingIds st).length 1 ⟨j, hj, hfree⟩
  refine ⟨1 + j₀, by omega, heq, hmem, ?_⟩
  intro m hm0 hmlt
  have := hall (m - 1) (by omega)
  rwa [show 1 + (m - 1) = m by omega] at this

/-- The freshly allocated identifier is in neither partition. -/
theorem next_booking_id_fresh (st : LedgerState) :
    _get_next_booking_id st ∉ allBookingIds st := by
  obtain ⟨n, _, heq, hmem, _⟩ := next_booking_id_spec st
  rw [heq]
  exact hmem

/-! ### Lemmas about the resolvers -/

theorem mem_hotel_options {hd : HotelData} {guests nights : Nat} {opt : RoomOption} :
    opt ∈ _get_hotel_room_options hd guests nights ↔
      ∃ p ∈ hd.room_details,
        hotelOptionFor guests nights hd.room_features p.1 p.2 = some opt := by
  unfold _get_hotel_room_options sortByTotalPrice
  rw [(List.perm_insertionSort _ _).mem_iff, List.mem_filterMap]

theorem mem_meeting_options {hd : HotelData} {guests days : Nat} {cat : Bool}
    {opt : RoomOption} :
    opt ∈ _get_meeting_room_options hd guests days cat ↔
      ∃ p ∈ hd.meeting_rooms, meetingOptionFor guests days cat p.1 p.2 = some opt := by
  unfold _get_meeting_room_options sortByTotalPrice
  rw [(List.perm_insertionSort _ _).mem_iff, List.mem_filterMap]

theorem hotelOptionFor_some {guests nights : Nat} {feats : List String}
    {name : String} {d : HotelRoomDetails} {opt : RoomOption}
    (h : hotelOptionFor guests nights feats name d = some opt) :
    ∃ pricing, List.lookup name ROOM_PRICING = some pricing ∧
      guests ≤ pricing.max_guests ∧
      opt.room_name = name ∧
      opt.max_capacity = pricing.max_guests ∧
      opt.price_per_night = some (pricing.base_price +
        (if 1 < pricing.max_guests then guests - 1 else 0) *
          pricing.price_per_extra_guest) ∧
      opt.total_price = (pricing.base_price +
        (if 1 < pricing.max_guests then guests - 1 else 0) *
          pricing.price_per_extra_guest) * nights := by
  unfold hotelOptionFor at h
  split at h
  · exact absurd h (by simp)
  next pricing hlk =>
    split at h
    · exact absurd h (by simp)
    next hg =>
      simp only [Option.some.injEq] at h
      subst h
      exact ⟨pricing, hlk, not_lt.mp hg, rfl, rfl, rfl, rfl⟩

/-- `meetingOptionFor` with the local bindings inlined (definitional). -/
theorem meetingOptionFor_unfold (guests days : Nat) (cat : Bool) (name : String)
    (d : MeetingRoomDetails) :
    meetingOptionFor guests days cat name d =
      (if d.max_capacity.getD 0 < guests then none
       else
        match List.lookup name MEETING_ROOM_PRICING with
        | none => none
        | some pricing =>
          some
            { room_name := name
              room_category := "Meeting Room"
              size_sqm := d.sqm
              max_capacity := d.max_capacity.getD 0
              available_count := none
              price_per_night := none
              price_per_day := some pricing.full_day
              total_price := pricing.full_day * days +
                (if cat then pricing.price_per_person_catering * guests * days else 0)
              nights := none
              days := some days
              features := meetingFeatures d
              notes := some ("Dimensions: " ++ meetingDims d ++ ", Height: " ++
                renderDim d.height_m ++ "m. " ++
                (if cat then some (cateringNote pricing) else none).getD "") }) := rfl

theorem meetingOptionFor_some {guests days : Nat} {cat : Bool}
    {name : String} {d : MeetingRoomDetails} {opt : RoomOption}
    (h : meetingOptionFor guests days cat name d = some opt) :
    ∃ pricing, List.lookup name MEETING_ROOM_PRICING = some pricing ∧
      guests ≤ d.max_capacity.getD 0 ∧
      opt.room_name = name ∧
      opt.max_capacity = d.max_capacity.getD 0 ∧
      opt.price_per_day = some pricing.full_day ∧
      opt.total_price = pricing.full_day * days +
        (if cat then pricing.price_per_person_catering * guests * days else 0) ∧
      (cat = true → ∃ pre, opt.notes = some (pre ++ cateringNote pricing)) := by
  rw [meetingOptionFor_unfold] at h
  split at h
  · exact absurd h (by simp)
  next hcap =>
    split at h
    · exact absurd h (by simp)
    next pricing hlk =>
      simp only [Option.some.injEq] at h
      subst h
      refine ⟨pricing, hlk, not_lt.mp hcap, rfl, rfl, rfl, rfl, ?_⟩
      intro hcat
      subst hcat
      exact ⟨"Dimensions: " ++ meetingDims d ++ ", Height: " ++
        renderDim d.height_m ++ "m. ", by simp⟩

/-! ### Lemmas about `confirm_booking` and `request_booking` -/

theorem confirm_booking_success {st : LedgerState} {bid room now : String}
    {st' : LedgerState} {cb : ConfirmedBooking}
    (h : confirm_booking st bid room now = (st', .success cb)) :
    st.confirmed.any (fun c => c.booking_id == bid) = false ∧
    ∃ pb, st.pending.find? (fun b => b.booking_id == bid) = some pb ∧
      ∃ sel, pb.available_options.find? (fun o => o.room_name == room) = some sel ∧
        cb = mkConfirmedBooking bid pb sel now ∧
        st' = { pending := st.pending.filter (fun b => b.booking_id != bid),
                confirmed := st.confirmed ++ [cb] } := by
  unfold confirm_booking at h
  split at h
  next hany => exact absurd h (by simp)
  next hany =>
    split at h
    next hfind => exact absurd h (by simp)
    next pb hfind =>
      split at h
      next hsel => exact absurd h (by simp)
      next sel hsel =>
        simp only [Prod.mk.injEq, ConfirmOutcome.success.injEq] at h
        exact ⟨by simpa using hany, pb, hfind, sel, hsel, h.2.symm, by rw [← h.1, ← h.2]⟩

theorem confirm_booking_roomNotFound {st : LedgerState} {bid room now : String}
    {pb : PendingBooking}
    (hany : st.confirmed.any (fun c => c.booking_id == bid) = false)
    (hfind : st.pending.find? (fun b => b.booking_id == bid) = some pb)
    (hsel : pb.available_options.find? (fun o => o.room_name == room) = none) :
    confirm_booking st bid room now = (st, .failure .roomNotAvailable) := by
  unfold confirm_booking
  simp [hany, hfind, hsel]

theorem request_booking_core_success {hd : HotelData} {parsed : ParsedBooking}
    {orig ts : String} {st st₂ : LedgerState} {pb : PendingBooking}
    (h : request_booking_core hd parsed orig ts st = (st₂, .success pb)) :
    pb.booking_id = _get_next_booking_id st ∧
    st₂ = { st with pending := st.pending ++ [pb] } ∧
    pb.available_options =
      (if lowerStr parsed.room_type == "hotel" then
        _get_hotel_room_options hd parsed.guests (parsed.check_out - parsed.check_in).toNat
      else
        _get_meeting_room_options hd parsed.guests (parsed.check_out - parsed.check_in).toNat
          parsed.include_catering) ∧
    parsed.check_in < parsed.check_out ∧ 1 ≤ parsed.guests ∧ parsed.guests ≤ 150 := by
  unfold request_booking_core at h
  by_cases hdates : parsed.check_out ≤ parsed.check_in
  · rw [if_pos hdates] at h; exact absurd h (by simp)
  · rw [if_neg hdates] at h
    by_cases hg : parsed.guests < 1 ∨ 150 < parsed.guests
    · rw [if_pos hg] at h; exact absurd h (by simp)
    · rw [if_neg hg] at h
      simp only [Prod.mk.injEq, RequestResult.success.injEq] at h
      push_neg at hg
      refine ⟨?_, by rw [← h.1, ← h.2], ?_, by omega, by omega, by omega⟩
      · rw [← h.2]
      · rw [← h.2]

/-! ### Ledger invariants -/

/-- The two partitions never share an identifier. -/
def DisjointLedger (st : LedgerState) : Prop :=
  ∀ p ∈ st.pending, ∀ c ∈ st.confirmed, p.booking_id ≠ c.booking_id

/-- No pending record carries the identifier `bid`. -/
def PendingFree (st : LedgerState) (bid : String) : Prop :=
  ∀ b ∈ st.pending, b.booking_id ≠ bid

/-- Some confirmed record carries the identifier `bid`. -/
def ConfirmedHas (st : LedgerState) (bid : String) : Prop :=
  ∃ c ∈ st.confirmed, c.booking_id = bid

instance (st : LedgerState) : Decidable (DisjointLedger st) := by
  unfold DisjointLedger; infer_instance

instance (st : LedgerState) (bid : String) : Decidable (PendingFree st bid) := by
  unfold PendingFree; infer_instance

instance (st : LedgerState) (bid : String) : Decidable (ConfirmedHas st bid) := by
  unfold ConfirmedHas; infer_instance

theorem disjoint_after_request {hd : HotelData} {parsed : ParsedBooking}
    {orig ts : String} {st st₂ : LedgerState} {pb : PendingBooking}
    (hdisj : DisjointLedger st)
    (h : request_booking_core hd parsed orig ts st = (st₂, .success pb)) :
    DisjointLedger st₂ := by
  obtain ⟨hid, hst, -⟩ := request_booking_core_success h
  subst hst
  intro p hp c hc
  rcases List.mem_append.mp hp with hold | hnew
  · exact hdisj p hold c hc
  · have hpb : p = pb := by simpa using hnew
    subst hpb
    rw [hid]
    intro hbad
    apply next_booking_id_fresh st
    rw [hbad]
    exact List.mem_append.mpr (Or.inr (List.mem_map.mpr ⟨c, hc, rfl⟩))

theorem confirm_preserves_exclusive {st : LedgerState} {bid room now : String}
    {st' : LedgerState} {cb : ConfirmedBooking}
    (hdisj : DisjointLedger st)
    (h : confirm_booking st bid room now = (st', .success cb)) :
    DisjointLedger st' ∧ PendingFree st' bid ∧ ConfirmedHas st' bid := by
  obtain ⟨-, pb, -, sel, -, hcb, hst⟩ := confirm_booking_success h
  have hcbid : cb.booking_id = bid := by rw [hcb]; rfl
  subst hst
  refine ⟨?_, ?_, ?_⟩
  · intro p hp c hc
    have hpold : p ∈ st.pending := List.mem_of_mem_filter hp
    have hpne : p.booking_id ≠ bid := by
      have := (List.mem_filter.mp hp).2
      simpa [bne_iff_ne] using this
    rcases List.mem_append.mp hc with hcold | hcnew
    · exact hdisj p hpold c hcold
    · have : c = cb := by simpa using hcnew
      subst this
      rw [hcbid]
      exact hpne
  · intro b hb
    have := (List.mem_filter.mp hb).2
    simpa [bne_iff_ne] using this
  · exact ⟨cb, List.mem_append.mpr (Or.inr (by simp)), hcbid⟩

/-! ### Concrete data for the spec scenarios and witnesses -/

/-- A hotel data file containing one 2-capacity room priced in the catalog
(base 119, extra-guest 25): the hotel scenario of spec §8. -/
def scenarioHotelData : HotelData :=
  { name := none, address := none, postal_code := none, city := none,
    email := none, phone := none,
    room_details := [("DORMERO Zimmer", ⟨none, none, none, none⟩)],
    room_features := [],
    meeting_rooms := [] }

/-- The single option resolved for 2 guests / 2 nights on `scenarioHotelData`. -/
def scenarioHotelOption : RoomOption :=
  { room_name := "DORMERO Zimmer", room_category := "Hotel Room", size_sqm := none,
    max_capacity := 2, available_count := none, price_per_night := some 144,
    price_per_day := none, total_price := 288, nights := some 2, days := none,
    features := [], notes := none }

/-- A hotel data file containing one 30-seat meeting room priced in the
catalog (full day 750, catering 35): the meeting scenario of spec §8. -/
def scenarioMeetingData : HotelData :=
  { name := none, address := none, postal_code := none, city := none,
    email := none, phone := none,
    room_details := [],
    room_features := [],
    meeting_rooms := [("Carolina Cik", ⟨some 30, none, false, false, none, none, none, none⟩)] }

/-- The single option resolved for 30 guests / 1 day with catering on
`scenarioMeetingData`. -/
def scenarioMeetingOption : RoomOption :=
  { room_name := "Carolina Cik", room_category := "Meeting Room", size_sqm := none,
    max_capacity := 30, available_count := none, price_per_night := none,
    price_per_day := some 750, total_price := 1800, nights := none, days := some 1,
    features := ["Flexible seating"],
    notes := some "Dimensions: ?m × ?m, Height: ?m. Includes catering: €35/person/day" }

/-- A hotel data file with one unpriced and one priced room in each category,
to exhibit the silent omission of rooms missing a pricing entry. -/
def unpricedRoomData : HotelData :=
  { name := none, address := none, postal_code := none, city := none,
    email := none, phone := none,
    room_details := [("Mystery Suite", ⟨none, none, none, none⟩),
                     ("Einzelzimmer", ⟨none, none, none, none⟩)],
    room_features := [],
    meeting_rooms := [("Secret Chamber", ⟨some 100, none, false, false, none, none, none, none⟩),
                      ("Carolina Cik", ⟨some 100, none, false, false, none, none, none, none⟩)] }

/-- The option resolved for 1 guest / 1 night on `unpricedRoomData`. -/
def unpricedDataHotelOption : RoomOption :=
  { room_name := "Einzelzimmer", room_category := "Hotel Room", size_sqm := none,
    max_capacity := 1, available_count := none, price_per_night := some 89,
    price_per_day := none, total_price := 89, nights := some 1, days := none,
    features := [], notes := none }

/-! ### C1 — hotel pricing formula -/

/-- The hotel pricing rule asserted by the spec, as a predicate on a resolved
option.  `guests - 1` is natural-number subtraction, which equals
`max(0, guests - 1)` of the source. -/
def HotelPriceSpec (guests nights : Nat) (opt : RoomOption) : Prop :=
  ∃ pricing, List.lookup opt.room_name ROOM_PRICING = some pricing ∧
    guests ≤ pricing.max_guests ∧
    opt.price_per_night = some (pricing.base_price +
      (if 1 < pricing.max_guests then guests - 1 else 0) * pricing.price_per_extra_guest) ∧
    opt.total_price = (pricing.base_price +
      (if 1 < pricing.max_guests then guests - 1 else 0) * pricing.price_per_extra_guest) * nights ∧
    (pricing.max_guests = 1 → opt.price_per_night = some pricing.base_price)

/-- C1: every resolved hotel option has
`pricePerNight = basePrice + max(0, guests-1) * perExtraGuestPrice` when the
room's capacity exceeds 1, no surcharge for single-occupancy rooms
(`maxGuests == 1`), and `totalPrice = pricePerNight * nights`; in particular
2 guests for 2 nights in the 2-capacity room with base price 119 and
extra-guest price 25 yields `pricePerNight = 144` and `totalPrice = 288`. -/
theorem hotel_pricing_resolved (hd : HotelData) (guests nights : Nat) (opt : RoomOption)
    (hmem : opt ∈ _get_hotel_room_options hd guests nights) :
    HotelPriceSpec guests nights opt ∧
    (_get_hotel_room_options scenarioHotelData 2 2).map
      (fun o => (o.room_name, o.price_per_night, o.total_price)) =
      [("DORMERO Zimmer", some 144, 288)] := by
  constructor
  · obtain ⟨⟨name, d⟩, hpd, heq⟩ := mem_hotel_options.mp hmem
    obtain ⟨pricing, hlk, hg, hrn, hcap, hppn, htp⟩ := hotelOptionFor_some heq
    refine ⟨pricing, by rw [hrn]; exact hlk, hg, hppn, htp, ?_⟩
    intro h1
    rw [hppn]
    simp [h1]
  · decide

theorem hotel_pricing_resolved_witness :
    scenarioHotelOption ∈ _get_hotel_room_options scenarioHotelData 2 2 ∧
    (HotelPriceSpec 2 2 scenarioHotelOption ∧
      (_get_hotel_room_options scenarioHotelData 2 2).map
        (fun o => (o.room_name, o.price_per_night, o.total_price)) =
        [("DORMERO Zimmer", some 144, 288)]) :=
  ⟨by decide, hotel_pricing_resolved scenarioHotelData 2 2 scenarioHotelOption (by decide)⟩

/-! ### C6 — meeting-room pricing formula -/

/-- The meeting pricing rule asserted by the spec, as a predicate on a
resolved option: full-day rate only, catering added per person per day, and
a catering annotation on the option's notes. -/
def MeetingPriceSpec (guests days : Nat) (cat : Bool) (opt : RoomOption) : Prop :=
  ∃ pricing, List.lookup opt.room_name MEETING_ROOM_PRICING = some pricing ∧
    opt.price_per_day = some pricing.full_day ∧
    opt.total_price = pricing.full_day * days +
      (if cat then pricing.price_per_person_catering * guests * days else 0) ∧
    (cat = true → ∃ pre, opt.notes = some (pre ++ cateringNote pricing))

/-- C6: every resolved meeting option is priced with the full-day rate
(`total = fullDayPrice * days`, the half-day rate never enters the formula),
plus `perPersonCateringPrice * guests * days` with a catering note when
catering is requested; in particular 30 guests for 1 day with catering at
full-day price 750 and catering 35/person/day yields `totalPrice = 1800`. -/
theorem meeting_pricing_resolved (hd : HotelData) (guests days : Nat) (cat : Bool)
    (opt : RoomOption)
    (hmem : opt ∈ _get_meeting_room_options hd guests days cat) :
    MeetingPriceSpec guests days cat opt ∧
    (_get_meeting_room_options scenarioMeetingData 30 1 true).map
      (fun o => (o.room_name, o.price_per_day, o.total_price)) =
      [("Carolina Cik", some 750, 1800)] := by
  constructor
  · obtain ⟨⟨name, d⟩, hpd, heq⟩ := mem_meeting_options.mp hmem
    obtain ⟨pricing, hlk, hg, hrn, hcap, hpd2, htp, hnotes⟩ := meetingOptionFor_some heq
    exact ⟨pricing, by rw [hrn]; exact hlk, hpd2, htp, hnotes⟩
  · decide

theorem meeting_pricing_resolved_witness :
    scenarioMeetingOption ∈ _get_meeting_room_options scenarioMeetingData 30 1 true ∧
    (MeetingPriceSpec 30 1 true scenarioMeetingOption ∧
      (_get_meeting_room_options scenarioMeetingData 30 1 true).map
        (fun o => (o.room_name, o.price_per_day, o.total_price)) =
        [("Carolina Cik", some 750, 1800)]) :=
  ⟨by decide, meeting_pricing_resolved scenarioMeetingData 30 1 true scenarioMeetingOption (by decide)⟩

/-! ### C7 — strict capacity exclusion -/

/-- C7: a room whose capacity is strictly below the requested guest count
never appears in the resolver output (hotel or meeting): every resolved
option carries its catalog capacity and that capacity is at least the
requested guest count — strict exclusion, no downgraded offer. -/
theorem capacity_strict_exclusion (hd : HotelData) (guests nights days : Nat)
    (cat : Bool) (opt : RoomOption)
    (hmem : opt ∈ _get_hotel_room_options hd guests nights ∨
            opt ∈ _get_meeting_room_options hd guests days cat) :
    guests ≤ opt.max_capacity ∧
    (opt ∈ _get_hotel_room_options hd guests nights →
      ∃ pricing, List.lookup opt.room_name ROOM_PRICING = some pricing ∧
        opt.max_capacity = pricing.max_guests) ∧
    (opt ∈ _get_meeting_room_options hd guests days cat →
      ∃ dtl, (opt.room_name, dtl) ∈ hd.meeting_rooms ∧
        opt.max_capacity = dtl.max_capacity.getD 0) := by
  have hhot : opt ∈ _get_hotel_room_options hd guests nights →
      guests ≤ opt.max_capacity ∧
      ∃ pricing, List.lookup opt.room_name ROOM_PRICING = some pricing ∧
        opt.max_capacity = pricing.max_guests := by
    intro hm
    obtain ⟨⟨name, d⟩, hpd, heq⟩ := mem_hotel_options.mp hm
    obtain ⟨pricing, hlk, hg, hrn, hcap, -, -⟩ := hotelOptionFor_some heq
    exact ⟨by rw [hcap]; exact hg, pricing, by rw [hrn]; exact hlk, hcap⟩
  have hmeet : opt ∈ _get_meeting_room_options hd guests days cat →
      guests ≤ opt.max_capacity ∧
      ∃ dtl, (opt.room_name, dtl) ∈ hd.meeting_rooms ∧
        opt.max_capacity = dtl.max_capacity.getD 0 := by
    intro hm
    obtain ⟨⟨name, d⟩, hpd, heq⟩ := mem_meeting_options.mp hm
    obtain ⟨pricing, hlk, hg, hrn, hcap, -, -, -⟩ := meetingOptionFor_some heq
    exact ⟨by rw [hcap]; exact hg, d, by rw [hrn]; exact hpd, hcap⟩
  refine ⟨?_, fun hm => (hhot hm).2, fun hm => (hmeet hm).2⟩
  rcases hmem with hm | hm
  · exact (hhot hm).1
  · exact (hmeet hm).1

theorem capacity_strict_exclusion_witness :
    (scenarioHotelOption ∈ _get_hotel_room_options scenarioHotelData 2 2 ∨
      scenarioHotelOption ∈ _get_meeting_room_options scenarioHotelData 2 1 false) ∧
    (2 ≤ scenarioHotelOption.max_capacity ∧
      (scenarioHotelOption ∈ _get_hotel_room_options scenarioHotelData 2 2 →
        ∃ pricing, List.lookup scenarioHotelOption.room_name ROOM_PRICING = some pricing ∧
          scenarioHotelOption.max_capacity = pricing.max_guests) ∧
      (scenarioHotelOption ∈ _get_meeting_room_options scenarioHotelData 2 1 false →
        ∃ dtl, (scenarioHotelOption.room_name, dtl) ∈ scenarioHotelData.meeting_rooms ∧
          scenarioHotelOption.max_capacity = dtl.max_capacity.getD 0)) :=
  ⟨Or.inl (by decide),
    capacity_strict_exclusion scenarioHotelData 2 2 1 false scenarioHotelOption
      (Or.inl (by decide))⟩

/-! ### C10 — rooms without a pricing entry are silently omitted -/

/-- C10: every resolved option (hotel or meeting) has an entry in the
corresponding static pricing table, so a room present in the hotel data but
absent from the pricing table never appears in the output (the resolvers
are total functions, so it also never causes an error); concretely, the
unpriced "Mystery Suite" and "Secret Chamber" of `unpricedRoomData` are
omitted while the priced rooms still resolve. -/
theorem unpriced_rooms_omitted (hd : HotelData) (guests nights days : Nat)
    (cat : Bool) (opt : RoomOption)
    (_hmem : opt ∈ _get_hotel_room_options hd guests nights ∨
             opt ∈ _get_meeting_room_options hd guests days cat) :
    (opt ∈ _get_hotel_room_options hd guests nights →
      (List.lookup opt.room_name ROOM_PRICING).isSome = true) ∧
    (opt ∈ _get_meeting_room_options hd guests days cat →
      (List.lookup opt.room_name MEETING_ROOM_PRICING).isSome = true) ∧
    (_get_hotel_room_options unpricedRoomData 1 1).map (fun o => o.room_name) =
      ["Einzelzimmer"] ∧
    (_get_meeting_room_options unpricedRoomData 1 1 false).map (fun o => o.room_name) =
      ["Carolina Cik"] := by
  refine ⟨?_, ?_, by decide, by decide⟩
  · intro hm
    obtain ⟨⟨name, d⟩, hpd, heq⟩ := mem_hotel_options.mp hm
    obtain ⟨pricing, hlk, -, hrn, -, -, -⟩ := hotelOptionFor_some heq
    rw [hrn, hlk]
    rfl
  · intro hm
    obtain ⟨⟨name, d⟩, hpd, heq⟩ := mem_meeting_options.mp hm
    obtain ⟨pricing, hlk, -, hrn, -, -, -, -⟩ := meetingOptionFor_some heq
    rw [hrn, hlk]
    rfl

theorem unpriced_rooms_omitted_witness :
    (unpricedDataHotelOption ∈ _get_hotel_room_options unpricedRoomData 1 1 ∨
      unpricedDataHotelOption ∈ _get_meeting_room_options unpricedRoomData 1 1 false) ∧
    ((unpricedDataHotelOption ∈ _get_hotel_room_options unpricedRoomData 1 1 →
        (List.lookup unpricedDataHotelOption.room_name ROOM_PRICING).isSome = true) ∧
      (unpricedDataHotelOption ∈ _get_meeting_room_options unpricedRoomData 1 1 false →
        (List.lookup unpricedDataHotelOption.room_name MEETING_ROOM_PRICING).isSome = true) ∧
      (_get_hotel_room_options unpricedRoomData 1 1).map (fun o => o.room_name) =
        ["Einzelzimmer"] ∧
      (_get_meeting_room_options unpricedRoomData 1 1 false).map (fun o => o.room_name) =
        ["Carolina Cik"]) :=
  ⟨Or.inl (by decide),
    unpriced_rooms_omitted unpricedRoomData 1 1 1 false unpricedDataHotelOption
      (Or.inl (by decide))⟩

/-! ### Concrete ledger states for the workflow witnesses -/

/-- A room option offered in the concrete pending booking below. -/
def wOption : RoomOption :=
  { room_name := "Alpha", room_category := "Hotel Room", size_sqm := none,
    max_capacity := 2, available_count := none, price_per_night := some 100,
    price_per_day := none, total_price := 200, nights := some 2, days := none,
    features := [], notes := none }

/-- A concrete pending booking with identifier `BK-001` offering `wOption`. -/
def wPending : PendingBooking :=
  { booking_id := "BK-001", original_request := "two nights for two",
    room_type := "hotel", check_in := 0, check_out := 2, guests := 2,
    include_catering := false, duration_nights := some 2, duration_days := none,
    available_options := [wOption], hotel_name := "DORMERO Hotel",
    hotel_address := "Duesseldorf", contact_email := "", contact_phone := "",
    timestamp := "t0" }

/-- Ledger with one pending booking and no confirmed bookings. -/
def wLedger : LedgerState := { pending := [wPending], confirmed := [] }

/-- The confirmed record produced by confirming `wPending` with `Alpha`. -/
def wConfirmed : ConfirmedBooking := mkConfirmedBooking "BK-001" wPending wOption "t1"

/-- The ledger after that confirmation. -/
def wLedgerAfter : LedgerState := { pending := [], confirmed := [wConfirmed] }

/-! ### C2 — confirming twice is a conflict, not a no-op -/

/-- C2: if a confirmation of `bid` succeeds (the identifier was pending and
the room was among its offered options), a second confirmation of the same
identifier fails with the already-confirmed conflict, leaves the ledger
unchanged, and the confirmed partition holds exactly one record for `bid`. -/
theorem confirm_twice_conflict (st : LedgerState) (bid room room2 now now2 : String)
    (st' : LedgerState) (cb : ConfirmedBooking)
    (hfirst : confirm_booking st bid room now = (st', .success cb)) :
    confirm_booking st' bid room2 now2 = (st', .failure .alreadyConfirmed) ∧
    st'.confirmed.countP (fun c => c.booking_id == bid) = 1 := by
  obtain ⟨hany, pb, hfind, sel, hsel, hcb, hst⟩ := confirm_booking_success hfirst
  have hcbid : cb.booking_id = bid := by rw [hcb]; rfl
  have hconf' : st'.confirmed = st.confirmed ++ [cb] := by rw [hst]
  have hany' : st'.confirmed.any (fun c => c.booking_id == bid) = true := by
    rw [hconf']
    refine List.any_eq_true.mpr ⟨cb, by simp, ?_⟩
    simp [hcbid]
  constructor
  · unfold confirm_booking
    rw [hany']
    simp
  · rw [hconf', List.countP_append]
    have h0 : st.confirmed.countP (fun c => c.booking_id == bid) = 0 := by
      rw [List.countP_eq_zero]
      intro c hc
      have := List.any_eq_false.mp hany c hc
      simpa using this
    rw [h0]
    simp [List.countP_cons, hcbid]

theorem confirm_twice_conflict_witness :
    confirm_booking wLedger "BK-001" "Alpha" "t1" = (wLedgerAfter, .success wConfirmed) ∧
    (confirm_booking wLedgerAfter "BK-001" "Alpha" "t2" =
        (wLedgerAfter, .failure .alreadyConfirmed) ∧
      wLedgerAfter.confirmed.countP (fun c => c.booking_id == "BK-001") = 1) :=
  ⟨by decide,
    confirm_twice_conflict wLedger "BK-001" "Alpha" "Alpha" "t1" "t2" wLedgerAfter
      wConfirmed (by decide)⟩

/-! ### C3 — the identifier allocator -/

/-- C3: the allocator returns `BK-<n>` (decimal, zero-padded to 3 digits,
embedded by `formatBookingId`) for the smallest positive integer `n` whose
formatted identifier is in neither ledger partition; consequently the
returned identifier differs from every identifier currently present. -/
theorem booking_id_allocator_correct (st : LedgerState) :
    ∃ n, 0 < n ∧ _get_next_booking_id st = formatBookingId n ∧
      formatBookingId n ∉ allBookingIds st ∧
      (∀ m, 0 < m → m < n → formatBookingId m ∈ allBookingIds st) ∧
      ∀ id ∈ allBookingIds st, _get_next_booking_id st ≠ id := by
  obtain ⟨n, hn, heq, hfree, hmin⟩ := next_booking_id_spec st
  refine ⟨n, hn, heq, hfree, hmin, ?_⟩
  intro id hid hbad
  rw [heq] at hbad
  exact hfree (hbad ▸ hid)

/-! ### C5 — an identifier lives in at most one partition -/

/-- C5: if the two partitions share no identifier, they still share none
after a new inquiry is persisted (its fresh identifier is in neither
partition) and after a successful confirmation; and immediately after a
successful confirmation of `bid` the identifier is absent from `pending`
and present in `confirmed` — never both, never neither. -/
theorem ledger_partitions_exclusive (st : LedgerState) (hd : HotelData)
    (parsed : ParsedBooking) (orig ts bid room now : String)
    (st₂ st' : LedgerState) (pb : PendingBooking) (cb : ConfirmedBooking)
    (hdisj : DisjointLedger st)
    (hreq : request_booking_core hd parsed orig ts st = (st₂, .success pb))
    (hconf : confirm_booking st bid room now = (st', .success cb)) :
    DisjointLedger st₂ ∧
      (DisjointLedger st' ∧ PendingFree st' bid ∧ ConfirmedHas st' bid) :=
  ⟨disjoint_after_request hdisj hreq, confirm_preserves_exclusive hdisj hconf⟩

/-- The parsed inquiry used by the workflow witnesses. -/
def wParsed : ParsedBooking :=
  { room_type := "hotel", check_in := 0, check_out := 2, guests := 2,
    include_catering := false }

/-- The pending record `request_booking_core` persists for `wParsed` on
`scenarioHotelData` over `wLedger` (identifier `BK-002`: `BK-001` is taken). -/
def wRequested : PendingBooking :=
  { booking_id := "BK-002", original_request := "orig", room_type := "hotel",
    check_in := 0, check_out := 2, guests := 2, include_catering := false,
    duration_nights := some 2, duration_days := none,
    available_options := [scenarioHotelOption], hotel_name := "DORMERO Hotel",
    hotel_address := ",  ", contact_email := "", contact_phone := "",
    timestamp := "ts" }

/-- The ledger after persisting `wRequested` on top of `wLedger`. -/
def wLedgerGrown : LedgerState := { pending := [wPending, wRequested], confirmed := [] }

theorem ledger_partitions_exclusive_witness :
    DisjointLedger wLedger ∧
    (DisjointLedger wLedgerGrown ∧
      (DisjointLedger wLedgerAfter ∧ PendingFree wLedgerAfter "BK-001" ∧
        ConfirmedHas wLedgerAfter "BK-001")) :=
  ⟨by decide,
    ledger_partitions_exclusive wLedger scenarioHotelData wParsed "orig" "ts"
      "BK-001" "Alpha" "t1" wLedgerGrown wLedgerAfter wRequested wConfirmed
      (by decide) (by decide) (by decide)⟩

/-! ### C8 — confirming an unoffered room fails and changes nothing -/

/-- C8: confirming a pending booking with a room name matching none of its
offered options fails with the not-found error for the room option, and the
returned ledger is literally the input ledger — both partitions unchanged,
nothing appended (the source raises before any store write). -/
theorem confirm_unmatched_room_fails (st : LedgerState) (bid room now : String)
    (pb : PendingBooking)
    (hany : st.confirmed.any (fun c => c.booking_id == bid) = false)
    (hfind : st.pending.find? (fun b => b.booking_id == bid) = some pb)
    (hroom : ∀ o ∈ pb.available_options, o.room_name ≠ room) :
    confirm_booking st bid room now = (st, .failure .roomNotAvailable) := by
  apply confirm_booking_roomNotFound hany hfind
  rw [List.find?_eq_none]
  intro o ho
  simpa using hroom o ho

theorem confirm_unmatched_room_fails_witness :
    (wLedger.confirmed.any (fun c => c.booking_id == "BK-001") = false) ∧
    (wLedger.pending.find? (fun b => b.booking_id == "BK-001") = some wPending) ∧
    confirm_booking wLedger "BK-001" "Zeta" "t9" =
      (wLedger, .failure .roomNotAvailable) :=
  ⟨by decide, by decide,
    confirm_unmatched_room_fails wLedger "BK-001" "Zeta" "t9" wPending
      (by decide) (by decide) (by decide)⟩

/-! ### C9 — confirmation copies the offered option unchanged -/

/-- C9: a successful confirmation selects an option offered in the matching
pending record and copies it into the confirmed record unchanged — in
particular the confirmed `totalPrice` equals the pending one, with no
recomputation — and the confirmed record is appended to the confirmed
partition. -/
theorem confirm_round_trip (st st' : LedgerState) (bid room now : String)
    (cb : ConfirmedBooking)
    (h : confirm_booking st bid room now = (st', .success cb)) :
    ∃ pb ∈ st.pending, pb.booking_id = bid ∧
      ∃ opt ∈ pb.available_options, opt.room_name = room ∧
        cb.selected_room = opt ∧
        cb.selected_room.total_price = opt.total_price ∧
        cb ∈ st'.confirmed := by
  obtain ⟨-, pb, hfind, sel, hsel, hcb, hst⟩ := confirm_booking_success h
  have hbid : pb.booking_id = bid := by
    have := List.find?_some hfind
    simpa using this
  have hname : sel.room_name = room := by
    have := List.find?_some hsel
    simpa using this
  have hselcb : cb.selected_room = sel := by rw [hcb]; rfl
  refine ⟨pb, List.mem_of_find?_eq_some hfind, hbid, sel,
    List.mem_of_find?_eq_some hsel, hname, hselcb, by rw [hselcb], ?_⟩
  rw [hst]
  exact List.mem_append.mpr (Or.inr (by simp))

theorem confirm_round_trip_witness :
    confirm_booking wLedger "BK-001" "Alpha" "t1" = (wLedgerAfter, .success wConfirmed) ∧
    (∃ pb ∈ wLedger.pending, pb.booking_id = "BK-001" ∧
      ∃ opt ∈ pb.available_options, opt.room_name = "Alpha" ∧
        wConfirmed.selected_room = opt ∧
        wConfirmed.selected_room.total_price = opt.total_price ∧
        wConfirmed ∈ wLedgerAfter.confirmed) :=
  ⟨by decide,
    confirm_round_trip wLedger wLedgerAfter "BK-001" "Alpha" "t1" wConfirmed (by decide)⟩

/-! ### C4 — unknown room types are NOT rejected (spec claim fails) -/

/-- The empty ledger. -/
def emptyLedger : LedgerState := { pending := [], confirmed := [] }

/-- A parsed inquiry with an unknown room-type discriminant. -/
def castleParsed : ParsedBooking :=
  { room_type := "Castle", check_in := 0, check_out := 1, guests := 2,
    include_catering := false }

/-- The pending record `request_booking_core` persists for `castleParsed`:
the inquiry SUCCEEDS, resolved with the meeting-room resolver, even though
`"castle"` is not a known room type; both duration fields stay `none`
because the stored room type is neither `"hotel"` nor `"meeting"`. -/
def castlePending : PendingBooking :=
  { booking_id := "BK-001", original_request := "orig", room_type := "castle",
    check_in := 0, check_out := 1, guests := 2, include_catering := false,
    duration_nights := none, duration_days := none,
    available_options :=
      [{ room_name := "Carolina Cik", room_category := "Meeting Room",
         size_sqm := none, max_capacity := 30, available_count := none,
         price_per_night := none, price_per_day := some 750, total_price := 750,
         nights := none, days := some 1, features := ["Flexible seating"],
         notes := some "Dimensions: ?m × ?m, Height: ?m. " }],
    hotel_name := "DORMERO Hotel", hotel_address := ",  ", contact_email := "",
    contact_phone := "", timestamp := "ts" }

/-- C4 counterexample: an inquiry whose room-type discriminant is the
unknown value `"Castle"` does not fail with a validation error — it
succeeds, and its options are exactly the meeting-room resolver's output:
the unknown discriminant is silently routed to the meeting branch. -/
theorem unknown_room_type_not_rejected :
    (request_booking_core scenarioMeetingData castleParsed "orig" "ts" emptyLedger).2 =
      RequestResult.success castlePending ∧
    castlePending.available_options =
      _get_meeting_room_options scenarioMeetingData 2 1 false := by decide

/-- C4 amended: the source contains no room-type validation — any inquiry
whose lowercased room type differs from `"hotel"` (unknown discriminants
included) that passes the date and guest checks succeeds, with its options
resolved by the meeting-room resolver. -/
theorem non_hotel_room_type_treated_as_meeting (hd : HotelData)
    (parsed : ParsedBooking) (orig ts : String) (st : LedgerState)
    (hrt : lowerStr parsed.room_type ≠ "hotel")
    (hdates : parsed.check_in < parsed.check_out)
    (hg1 : 1 ≤ parsed.guests) (hg2 : parsed.guests ≤ 150) :
    ∃ pb, (request_booking_core hd parsed orig ts st).2 = RequestResult.success pb ∧
      pb.available_options = _get_meeting_room_options hd parsed.guests
        (parsed.check_out - parsed.check_in).toNat parsed.include_catering := by
  have h1 : ¬(parsed.check_out ≤ parsed.check_in) := by omega
  have h2 : ¬(parsed.guests < 1 ∨ 150 < parsed.guests) := by omega
  have hbeq : (lowerStr parsed.room_type == "hotel") = false :=
    beq_eq_false_iff_ne.mpr hrt
  unfold request_booking_core
  rw [if_neg h1, if_neg h2]
  refine ⟨_, rfl, ?_⟩
  show (if (lowerStr parsed.room_type == "hotel") = true then
      _get_hotel_room_options hd parsed.guests (parsed.check_out - parsed.check_in).toNat
    else
      _get_meeting_room_options hd parsed.guests (parsed.check_out - parsed.check_in).toNat
        parsed.include_catering) =
    _get_meeting_room_options hd parsed.guests (parsed.check_out - parsed.check_in).toNat
      parsed.include_catering
  rw [hbeq]
  simp

theorem non_hotel_room_type_treated_as_meeting_witness :
    lowerStr castleParsed.room_type ≠ "hotel" ∧
    (∃ pb, (request_booking_core scenarioMeetingData castleParsed "orig" "ts"
        emptyLedger).2 = RequestResult.success pb ∧
      pb.available_options = _get_meeting_room_options scenarioMeetingData
        castleParsed.guests
        (castleParsed.check_out - castleParsed.check_in).toNat
        castleParsed.include_catering) :=
  ⟨by decide,
    non_hotel_room_type_treated_as_meeting scenarioMeetingData castleParsed "orig" "ts"
      emptyLedger (by decide) (by decide) (by decide) (by decide)⟩

end HotelAgent
